import Mathlib

/-!
Verification development for the HR resume-screening repository.

The Python sources are shallowly embedded: every external effect (the two
LLM endpoints, the PDF/DOCX readers, the PostgreSQL engine reached through
a psycopg2 connection pool) is passed in as an explicit oracle value, and
each Python function that the specification talks about is translated into
a total Lean function over those oracles.  JSON payloads decoded by
Python's `json.loads` are modelled by the inductive type `Json` below,
with numbers as exact rationals.
-/

namespace HRSA

/-- JSON values as decoded by Python's `json.loads`.  Numbers are modelled as
exact rationals (the value denoted by the decimal literal); object fields keep
their insertion order, mirroring Python dictionaries, and objects produced by
`json.loads` have pairwise distinct keys. -/
inductive Json where
  | null
  | bool (b : Bool)
  | num (q : ℚ)
  | str (s : String)
  | arr (elems : List Json)
  | obj (fields : List (String × Json))

/-- Dictionary lookup: `d[k]` / `k in d` support.  Returns `none` when the
value is not an object or the key is absent. -/
def Json.lookup : Json → String → Option Json
  | .obj fields, k => List.lookup k fields
  | _, _ => none

/-- Python `dict.get(k, default)` on a decoded JSON object. -/
def Json.getD (j : Json) (k : String) (default : Json) : Json :=
  (j.lookup k).getD default

/-- Python dictionary assignment `d[k] = v`: replaces the value in place when
the key is present (keeping its position) and appends the pair otherwise. -/
def setKey : List (String × Json) → String → Json → List (String × Json)
  | [], k, v => [(k, v)]
  | (a, b) :: t, k, v => if a = k then (k, v) :: t else (a, b) :: setKey t k v

/-- Python truthiness of a decoded JSON value (`bool(x)` / `not x`). -/
def pyTruthy : Json → Bool
  | .null => false
  | .bool b => b
  | .num q => decide (q ≠ 0)
  | .str s => decide (s ≠ "")
  | .arr elems => !elems.isEmpty
  | .obj fields => !fields.isEmpty

/-- Numeric value of a digit string (list of `0`-`9` characters). -/
def digitsVal (cs : List Char) : ℕ :=
  cs.foldl (fun a c => a * 10 + (c.toNat - 48)) 0

/-- Rational value of an integer part and a fractional digit part. -/
def mkNum (ip fp : List Char) : ℚ :=
  if fp.isEmpty then (digitsVal ip : ℚ)
  else (digitsVal ip : ℚ) + (digitsVal fp : ℚ) / (10 : ℚ) ^ fp.length

/-- Python `float(s)` on a string: optional surrounding whitespace and sign, a
decimal mantissa with at least one digit, and an optional exponent.  Returns
`none` when Python would raise `ValueError`.  (The `inf`/`nan` spellings and
digit-group underscores accepted by Python cannot arise from the numeric
fields handled here and are not modelled.) -/
def parseDecimal? (s : String) : Option ℚ :=
  let cs := s.trim.toList
  let (neg, cs) := match cs with
    | '+' :: rest => (false, rest)
    | '-' :: rest => (true, rest)
    | _ => (false, cs)
  let (ip, cs) := cs.span Char.isDigit
  let (fp, cs) := match cs with
    | '.' :: rest => rest.span Char.isDigit
    | _ => (([] : List Char), cs)
  if ip.isEmpty ∧ fp.isEmpty then none
  else
    let mant := mkNum ip fp
    let signed := if neg then -mant else mant
    match cs with
    | [] => some signed
    | c :: rest =>
      if c = 'e' ∨ c = 'E' then
        let (eneg, rest) := match rest with
          | '+' :: r => (false, r)
          | '-' :: r => (true, r)
          | _ => (false, rest)
        let (ed, rest) := rest.span Char.isDigit
        if ed.isEmpty ∨ ¬ rest.isEmpty then none
        else
          let e : ℤ := if eneg then -(digitsVal ed : ℤ) else (digitsVal ed : ℤ)
          some (signed * (10 : ℚ) ^ e)
      else none

/-- Python `int(s)` on a string: optional surrounding whitespace, optional
sign, then decimal digits only.  `none` models `ValueError`. -/
def parseInt? (s : String) : Option ℤ :=
  let cs := s.trim.toList
  let (neg, cs1) := match cs with
    | '+' :: r => (false, r)
    | '-' :: r => (true, r)
    | _ => (false, cs)
  if cs1.isEmpty ∨ ¬ cs1.all Char.isDigit then none
  else some (if neg then -(digitsVal cs1 : ℤ) else (digitsVal cs1 : ℤ))

/-- Python `float(x)` on a decoded JSON value: numbers pass through, booleans
become 0/1, strings are parsed; `None`, lists and dicts raise `TypeError`,
modelled as `none`. -/
def pyFloat? : Json → Option ℚ
  | .num q => some q
  | .bool b => some (if b then 1 else 0)
  | .str s => parseDecimal? s
  | _ => none

/-- Decimal digits of the fractional part of `q ∈ [0,1)`, with fuel.  Used
only to render terminating decimals (JSON numbers are such). -/
def fracDigits : ℕ → ℚ → List Char
  | 0, _ => []
  | fuel + 1, q =>
    if q = 0 then []
    else
      let q10 := q * 10
      let d : ℤ := ⌊q10⌋
      Char.ofNat (48 + d.toNat) :: fracDigits fuel (q10 - (d : ℚ))

/-- Python `str(x)` on a decoded JSON value, as applied by
`_analyze_experience` to `result.get(...)` values.  Numbers with denominator 1
render as integers and other numbers as their terminating decimal expansion;
list and dict values are rendered by Python as their full repr, which none of
the verified claims depend on, so they are abstracted to placeholder text. -/
def pyStr : Json → String
  | .str s => s
  | .num q =>
    if q.den = 1 then toString q.num
    else
      let sgn := if q < 0 then "-" else ""
      let aq := |q|
      let ipart : ℕ := (⌊aq⌋).toNat
      sgn ++ toString ipart ++ "." ++ String.mk (fracDigits 64 (aq - (ipart : ℚ)))
  | .bool b => if b then "True" else "False"
  | .null => "None"
  | .arr _ => "[list repr]"
  | .obj _ => "[dict repr]"

/-! AI evaluator (`src/ai_evaluator.py`).  Each call to an external model
endpoint is an oracle of type `Except Unit Json`: `.ok j` means the call
returned text that `json.loads` decoded to `j`; `.error ()` means the call or
the decoding raised. -/

/-- The seven scalar keys validated by `_extract_candidate_info`. -/
def candidateKeys : List String :=
  ["name", "email", "phone", "location", "linkedin", "education", "total_experience"]

/-- The sentinel value used for missing candidate fields. -/
def notProvided : Json := .str "Not provided"

/-- The sentinel record returned when candidate-identity extraction fails
(`_extract_candidate_info`, lines 109-118). -/
def sentinelCandidateInfo : Json :=
  .obj [("name", notProvided), ("email", notProvided), ("phone", notProvided),
        ("location", notProvided), ("linkedin", notProvided), ("education", notProvided),
        ("total_experience", notProvided), ("key_skills", .arr [])]

/-- One iteration of the validation loop of `_extract_candidate_info`
(lines 96-98): a missing, falsy, or `"none"`/`"null"` string value is
replaced by the sentinel; calling `.lower()` on a truthy non-string value
raises `AttributeError`, modelled as `none` (the outer handler then returns
the sentinel record). -/
def cleanKey (fields : List (String × Json)) (k : String) : Option (List (String × Json)) :=
  match List.lookup k fields with
  | none => some (setKey fields k notProvided)
  | some v =>
    if ¬ pyTruthy v then some (setKey fields k notProvided)
    else
      match v with
      | .str s =>
        if s.toLower = "none" ∨ s.toLower = "null" ∨ s.toLower = "" then
          some (setKey fields k notProvided)
        else some fields
      | _ => none

/-- The validation and cleaning stage of `_extract_candidate_info`
(lines 96-101).  A decoded response that is not a JSON object always raises
inside the loop (membership test, subscript or assignment on a non-dict), so
it is mapped to `none`. -/
def cleanCandidate : Json → Option Json
  | .obj fields =>
    match candidateKeys.foldlM cleanKey fields with
    | none => none
    | some fields1 =>
      let fields2 :=
        match List.lookup "key_skills" fields1 with
        | some (.arr elems) => setKey fields1 "key_skills" (.arr elems)
        | _ => setKey fields1 "key_skills" (.arr [])
      some (.obj fields2)
  | _ => none

/-- `_extract_candidate_info` (lines 27-118).  `resp` combines the Anthropic
attempt and the OpenAI fallback: `.error ()` means both provider calls (or
their `json.loads`) raised.  Every error path ends in the sentinel record. -/
def extractCandidateInfo (resp : Except Unit Json) : Json :=
  match resp with
  | .error _ => sentinelCandidateInfo
  | .ok j => (cleanCandidate j).getD sentinelCandidateInfo

/-- Whitespace-then-`year`/`yr` check for the first regex of
`_extract_years_from_text` (the optional trailing `s` of `years?`/`yrs?` is
not required for a match). -/
def yearsSuffix (cs : List Char) : Bool :=
  let cs1 := cs.dropWhile Char.isWhitespace
  List.isPrefixOf "year".toList cs1 || List.isPrefixOf "yr".toList cs1

/-- Optional fractional part `(?:\.\d+)?`: a dot followed by at least one
digit. -/
def fracPart : List Char → Option (List Char × List Char)
  | '.' :: rest =>
    let (fp, rest1) := rest.span Char.isDigit
    if fp.isEmpty then none else some (fp, rest1)
  | _ => none

/-- Attempt of the pattern `(\d+(?:\.\d+)?)\s*(?:years?|yrs?)` at one start
position, with the regex backtracking over the optional fractional group. -/
def tryYearsAt (cs : List Char) : Option ℚ :=
  let (ip, rest) := cs.span Char.isDigit
  if ip.isEmpty then none
  else
    match fracPart rest with
    | some (fp, rest1) =>
      if yearsSuffix rest1 then some (mkNum ip fp)
      else if yearsSuffix rest then some (mkNum ip [])
      else none
    | none => if yearsSuffix rest then some (mkNum ip []) else none

/-- Leftmost match of the number-followed-by-years pattern (`re.search`). -/
def searchYears : List Char → Option ℚ
  | [] => none
  | c :: rest =>
    match tryYearsAt (c :: rest) with
    | some q => some q
    | none => searchYears rest

/-- Leftmost match of the bare number pattern `(\d+(?:\.\d+)?)`. -/
def searchNumber : List Char → Option ℚ
  | [] => none
  | c :: rest =>
    if c.isDigit then
      let (ip, rest1) := (c :: rest).span Char.isDigit
      match fracPart rest1 with
      | some (fp, _) => some (mkNum ip fp)
      | none => some (mkNum ip [])
    else searchNumber rest

/-- `_extract_years_from_text` (lines 120-138): first a number followed by a
year marker on the lowercased text, then any number on the original text,
else 0. -/
def extractYearsFromText (text : String) : ℚ :=
  match searchYears text.toLower.toList with
  | some q => q
  | none =>
    match searchNumber text.toList with
    | some q => q
    | none => 0

/-- The structured years-of-experience block built by `_analyze_experience`. -/
structure ExperienceBlock where
  total : ℚ
  relevant : ℚ
  required : ℚ
  meets_requirement : Bool
  details : Json
  quality_score : ℚ

/-- The block returned by the exception handler of `_analyze_experience`
(lines 192-199). -/
def failedExperience (min_years : ℤ) : ExperienceBlock :=
  { total := 0, relevant := 0, required := (min_years : ℚ), meets_requirement := false,
    details := .str "Failed to analyze experience", quality_score := 0 }

/-- `_analyze_experience` (lines 140-199).  The handler is reached when the
model call or `json.loads` raises (`resp = .error`), when the decoded
response is not an object (`.get` raises), or when
`float(result.get('quality_score', 0))` raises. -/
def analyzeExperience (resp : Except Unit Json) (min_years : ℤ) : ExperienceBlock :=
  match resp with
  | .error _ => failedExperience min_years
  | .ok result =>
    match result with
    | .obj fields =>
      match pyFloat? ((Json.obj fields).getD "quality_score" (.num 0)) with
      | none => failedExperience min_years
      | some qs =>
        let relevant_years :=
          extractYearsFromText (pyStr ((Json.obj fields).getD "relevant_years" (.str "0")))
        { total := extractYearsFromText (pyStr ((Json.obj fields).getD "total_years" (.str "0"))),
          relevant := relevant_years,
          required := (min_years : ℚ),
          meets_requirement := decide (relevant_years ≥ (min_years : ℚ)),
          details := (Json.obj fields).getD "experience_details" (.str "No details provided"),
          quality_score := max 0 (min 1 qs) }
    | _ => failedExperience min_years

/-- Whether `_analyze_experience` returns through its success path (the
response decoded to an object and the quality-score conversion succeeded). -/
def experienceSuccessPath : Except Unit Json → Bool
  | .ok (Json.obj fields) =>
    (pyFloat? ((Json.obj fields).getD "quality_score" (.num 0))).isSome
  | _ => false

/-- The years-of-experience block as the dictionary merged into the final
evaluation result. -/
def ExperienceBlock.toJson (b : ExperienceBlock) : Json :=
  .obj [("total", .num b.total), ("relevant", .num b.relevant), ("required", .num b.required),
        ("meets_requirement", .bool b.meets_requirement), ("details", b.details),
        ("quality_score", .num b.quality_score)]

/-- The typed criteria dictionary returned by
`Database.get_evaluation_criteria` and passed to `evaluate_resume`. -/
structure CriteriaOut where
  min_years_experience : ℤ
  required_skills : Json
  preferred_skills : Json
  education_requirements : String
  company_background_requirements : String
  domain_experience_requirements : String
  additional_instructions : String

/-- The three external model calls made during one `evaluate_resume`
invocation. -/
structure ModelResponses where
  candidate : Except Unit Json
  experience : Except Unit Json
  evaluation : Except Unit Json

/-- The `min_years_experience` extraction of `evaluate_resume` (line 213):
the criteria value when criteria were passed, 0 otherwise. -/
def criteriaMinYears : Option CriteriaOut → ℤ
  | some c => c.min_years_experience
  | none => 0

/-- `evaluate_resume` (lines 201-284).  No schema validation is performed on
the decoded evaluation response: the merged dictionary is built with
`{**evaluation_result, ...}` and returned as is, with the three extra keys
overriding any keys of the same name.  A decoded response that is not an
object makes the `**` unpacking raise, which the function re-raises. -/
def evaluateResume (rs : ModelResponses) (criteria : Option CriteriaOut) (now : String) :
    Except Unit Json :=
  let candidate_info := extractCandidateInfo rs.candidate
  let experience_analysis := analyzeExperience rs.experience (criteriaMinYears criteria)
  match rs.evaluation with
  | .error e => .error e
  | .ok (.obj fields) =>
    .ok (.obj (setKey (setKey (setKey fields "candidate_info" candidate_info)
      "years_of_experience" experience_analysis.toJson) "evaluation_date" (.str now)))
  | .ok _ => .error ()

/-! Persistence layer (`src/database.py`).  The relational store is a record
of row lists; SERIAL primary keys are modelled by `next...Id` counters, so
row identifiers are unique by construction.  Columns declared `TEXT` that
hold `json.dumps` output are modelled by the decoded `Json` value (writing
serializes it and a read of the text column parses it back); the `JSONB`
column is special-cased in `getEvaluationDetails` below. -/

/-- A row of `job_descriptions`. -/
structure JobRow where
  id : ℕ
  title : String
  description : String
  date_created : ℕ
  active : Bool

/-- A row of `evaluation_criteria`.  The requirement columns hold whatever
value the caller supplied for the SQL parameter. -/
structure CriteriaRow where
  id : ℕ
  job_id : ℕ
  min_years_experience : ℤ
  required_skills : Json
  preferred_skills : Json
  education_requirements : Json
  company_background_requirements : Json
  domain_experience_requirements : Json
  additional_instructions : Json

/-- A row of `evaluations`.  Timestamps are seconds since the epoch;
`evaluation_date` is filled by the column default `CURRENT_TIMESTAMP`. -/
structure EvalRow where
  id : ℕ
  job_id : ℕ
  resume_name : String
  candidate_name : Option String
  candidate_email : Option String
  candidate_phone : Option String
  candidate_location : Option String
  linkedin_profile : Option String
  result : String
  justification : String
  match_score : ℚ
  confidence_score : ℚ
  years_experience_total : ℚ
  years_experience_relevant : ℚ
  years_experience_required : ℚ
  meets_experience_requirement : Bool
  key_matches : Json
  missing_requirements : Json
  experience_analysis : Option String
  evaluation_data : Json
  evaluation_date : ℕ
  resume_file_data : Option (List ℕ)
  resume_file_type : Option String

/-- The relational store owned by the `Database` class. -/
structure Store where
  jobs : List JobRow
  criteria : List CriteriaRow
  evals : List EvalRow
  nextJobId : ℕ
  nextCriteriaId : ℕ
  nextEvalId : ℕ

/-- A store with empty tables, as `create_tables` leaves a fresh database. -/
def emptyStore : Store :=
  { jobs := [], criteria := [], evals := [], nextJobId := 1, nextCriteriaId := 1, nextEvalId := 1 }

/-- `SimpleConnectionPool.getconn`: hands out one pooled connection, or
raises `PoolError` when the pool is exhausted (modelled as `none`).  The pool
is the list of currently available connections. -/
def getconn : List ℕ → Option (ℕ × List ℕ)
  | [] => none
  | c :: rest => some (c, rest)

/-- `SimpleConnectionPool.putconn`: returns a connection to the pool. -/
def putconn (pool : List ℕ) (c : ℕ) : List ℕ := c :: pool

/-- The `get_connection` context manager (lines 28-35): acquire one
connection, run the body, and return the connection in a `finally` block, so
it is released whether the body returns a value or raises.  When `getconn`
itself raises, nothing was acquired and the pool is untouched. -/
def withConnection {β : Type} (pool : List ℕ) (body : ℕ → β) : Option β × List ℕ :=
  match getconn pool with
  | none => (none, pool)
  | some (c, rest) => (some (body c), putconn rest c)

/-- The commit/rollback discipline of `execute_query` (lines 102-117): the
statement's effect on the store is committed on success and rolled back —
store unchanged — when the statement raises. -/
def runStatement {α : Type} (st : Store) (tx : Store → Except Unit (α × Store)) :
    Except Unit α × Store :=
  match tx st with
  | .ok (r, st1) => (.ok r, st1)
  | .error e => (.error e, st)

/-- `execute_query` (lines 102-117): one pooled connection for the duration
of one statement, committed once on success, rolled back on error, the
connection released on every exit path.  The outer `Option` is `none` when
the pool was exhausted (the operation fails before touching the store). -/
def executeQuery {α : Type} (pool : List ℕ) (st : Store)
    (tx : Store → Except Unit (α × Store)) :
    Option (Except Unit α × Store) × List ℕ :=
  withConnection pool (fun _ => runStatement st tx)

/-- The `min_years_experience` coercion of `add_job_description`
(lines 156-163): strings are parsed with `int` (falling back to 0 on
`ValueError`); Python booleans are `int` instances; JSON integers are `int`
instances; any other value becomes 0. -/
def coerceMinYears : Option Json → ℤ
  | some (.str s) => (parseInt? s).getD 0
  | some (.num q) => if q.den = 1 then q.num else 0
  | some (.bool b) => if b then 1 else 0
  | _ => 0

/-- `add_job_description` (lines 149-184).  The job insert and the criteria
insert are two separate `execute_query` calls, each committing on its own.
The second statement only runs when `if evaluation_criteria:` holds, i.e.
when the criteria argument is present and truthy (a falsy value such as an
empty dict skips it and the call returns normally);
`criteriaInsertFails` injects a database error into that second statement
(which `execute_query` then rolls back and re-raises).  The returned store is
the committed state when the call returns or raises.  Note the criteria
insert omits the `company_background_requirements` column, which therefore
stays NULL. -/
def addJobDescription (st : Store) (title description : String) (criteria : Option Json)
    (now : ℕ) (criteriaInsertFails : Bool) : Except Unit ℕ × Store :=
  let job_id := st.nextJobId
  let st1 : Store :=
    { st with
      jobs := st.jobs ++ [{ id := job_id, title := title, description := description,
                            date_created := now, active := true }],
      nextJobId := job_id + 1 }
  match criteria with
  | none => (.ok job_id, st1)
  | some c =>
    if pyTruthy c then
      if criteriaInsertFails then (.error (), st1)
      else
        let row : CriteriaRow :=
          { id := st1.nextCriteriaId, job_id := job_id,
            min_years_experience := coerceMinYears (c.lookup "min_years_experience"),
            required_skills := c.getD "required_skills" (.arr []),
            preferred_skills := c.getD "preferred_skills" (.arr []),
            education_requirements := c.getD "education_requirements" (.str ""),
            company_background_requirements := .null,
            domain_experience_requirements := c.getD "domain_experience_requirements" (.str ""),
            additional_instructions := c.getD "additional_instructions" (.str "") }
        (.ok job_id, { st1 with criteria := st1.criteria ++ [row],
                                nextCriteriaId := st1.nextCriteriaId + 1 })
    else (.ok job_id, st1)

/-- `delete_job` (lines 208-210): `UPDATE job_descriptions SET active = false
WHERE id = %s` — a soft delete that never removes the row and succeeds even
when no row matches. -/
def deleteJob (st : Store) (job_id : ℕ) : Store :=
  { st with
    jobs := st.jobs.map (fun j => if j.id = job_id then { j with active := false } else j) }

/-- Adaptation of a decoded JSON value as a nullable SQL `TEXT` parameter:
strings map to text, `None` maps to NULL, and any other Python type makes the
insert fail (the column type rejects it). -/
def asText? : Json → Option (Option String)
  | .str s => some (some s)
  | .null => some none
  | _ => none

/-- Adaptation as a `TEXT NOT NULL` parameter: only strings are accepted. -/
def asTextNN? : Json → Option String
  | .str s => some s
  | _ => none

/-- The parameter tuple built by `save_evaluation` (lines 228-263) before the
insert runs. -/
structure SaveParams where
  candidate_name : Option String
  candidate_email : Option String
  candidate_phone : Option String
  candidate_location : Option String
  linkedin_profile : Option String
  result : String
  justification : String
  match_score : ℚ
  confidence_score : ℚ
  yoe_total : ℚ
  yoe_relevant : ℚ
  yoe_required : ℚ
  meets : Bool
  key_matches : Json
  missing_requirements : Json
  experience_analysis : Option String
  evaluation_data : Json

/-- The conversions `save_evaluation` performs while building its parameter
tuple.  `none` models an exception raised before the `INSERT` is executed
(`.get` on a non-dict, `float()` on an unconvertible value, or a value the
target column rejects); in that case nothing reaches the database. -/
def computeSaveParams (evaluation_result : Json) : Option SaveParams :=
  match evaluation_result with
  | .obj _ =>
    match evaluation_result.getD "candidate_info" (.obj []) with
    | .obj ci =>
      match evaluation_result.getD "years_of_experience" (.obj []) with
      | .obj yo =>
        match asText? ((Json.obj ci).getD "name" (.str "")),
              asText? ((Json.obj ci).getD "email" (.str "")),
              asText? ((Json.obj ci).getD "phone" (.str "")),
              asText? ((Json.obj ci).getD "location" (.str "")),
              asText? ((Json.obj ci).getD "linkedin" (.str "")),
              asTextNN? (evaluation_result.getD "decision" (.str "")),
              asTextNN? (evaluation_result.getD "justification" (.str "")),
              pyFloat? (evaluation_result.getD "match_score" (.num 0)),
              pyFloat? (evaluation_result.getD "confidence_score" (.num 0)),
              pyFloat? ((Json.obj yo).getD "total" (.num 0)),
              pyFloat? ((Json.obj yo).getD "relevant" (.num 0)),
              pyFloat? ((Json.obj yo).getD "required" (.num 0)),
              asText? ((Json.obj yo).getD "details" (.str "")) with
        | some cn, some ce, some cp, some cl, some li, some res, some ju,
          some ms, some cs, some yt, some yr, some yq, some ea =>
          some { candidate_name := cn, candidate_email := ce, candidate_phone := cp,
                 candidate_location := cl, linkedin_profile := li,
                 result := res, justification := ju, match_score := ms, confidence_score := cs,
                 yoe_total := yt, yoe_relevant := yr, yoe_required := yq,
                 meets := pyTruthy ((Json.obj yo).getD "meets_requirement" (.bool false)),
                 key_matches := evaluation_result.getD "key_matches" (.arr []),
                 missing_requirements := evaluation_result.getD "missing_requirements" (.arr []),
                 experience_analysis := ea,
                 evaluation_data := evaluation_result }
        | _, _, _, _, _, _, _, _, _, _, _, _, _ => none
      | _ => none
    | _ => none
  | _ => none

/-- The uploaded file object handed over by the UI framework. -/
structure UploadFile where
  name : String
  media_type : String
  content : List ℕ

/-- `save_evaluation` (lines 212-270): build the parameter tuple, then run
one `INSERT` through `execute_query`.  The insert is rejected — and rolled
back, leaving the store unchanged — when the `job_id` foreign key references
no `job_descriptions` row. -/
def saveEvaluation (st : Store) (job_id : ℕ) (resume_name : String)
    (evaluation_result : Json) (resume_file : Option UploadFile) (now : ℕ) :
    Except Unit Store :=
  match computeSaveParams evaluation_result with
  | none => .error ()
  | some p =>
    if (st.jobs.find? (fun j => decide (j.id = job_id))).isSome then
      let row : EvalRow :=
        { id := st.nextEvalId, job_id := job_id, resume_name := resume_name,
          candidate_name := p.candidate_name, candidate_email := p.candidate_email,
          candidate_phone := p.candidate_phone, candidate_location := p.candidate_location,
          linkedin_profile := p.linkedin_profile, result := p.result,
          justification := p.justification, match_score := p.match_score,
          confidence_score := p.confidence_score, years_experience_total := p.yoe_total,
          years_experience_relevant := p.yoe_relevant, years_experience_required := p.yoe_required,
          meets_experience_requirement := p.meets, key_matches := p.key_matches,
          missing_requirements := p.missing_requirements,
          experience_analysis := p.experience_analysis, evaluation_data := p.evaluation_data,
          evaluation_date := now,
          resume_file_data := resume_file.map (fun f => f.content),
          resume_file_type := resume_file.map (fun f => f.media_type) }
      .ok { st with evals := st.evals ++ [row], nextEvalId := st.nextEvalId + 1 }
    else .error ()

/-- The record `get_evaluation_details` builds from a fetched row. -/
structure EvalDetails where
  id : ℕ
  job_id : ℕ
  resume_name : String
  result : String
  justification : String
  match_score : ℚ
  years_experience_total : ℚ
  years_experience_relevant : ℚ
  years_experience_required : ℚ
  meets_experience_requirement : Bool
  key_matches : Json
  missing_requirements : Json
  experience_analysis : Option String
  evaluation_date : ℕ
  evaluation_data : Json

/-- `json.loads` applied to a fetched `TEXT` column that holds `json.dumps`
output: parsing the serialized text yields the stored value back. -/
def loadsTextColumn (stored : Json) : Except Unit Json := .ok stored

/-- `json.loads` applied to a fetched `JSONB` column.  psycopg2 converts
`json`/`jsonb` values to Python objects on read, so the argument is already
decoded and `json.loads` raises `TypeError` for every non-string value.
Rows written by `saveEvaluation` always hold a JSON object here
(`computeSaveParams` only succeeds on objects), so the string case — where
Python would re-parse the text — is unreachable from this code base and is
conservatively modelled as an error as well. -/
def loadsJsonbColumn : Json → Except Unit Json
  | _ => .error ()

/-- `get_evaluation_details` (lines 387-412): fetch the row by id, then
decode `key_matches`, `missing_requirements` and `evaluation_data` with
`json.loads`.  An exception while decoding propagates to the caller
(`.error`); an absent row yields `None`. -/
def getEvaluationDetails (st : Store) (evaluation_id : ℕ) : Except Unit (Option EvalDetails) :=
  match st.evals.find? (fun r => decide (r.id = evaluation_id)) with
  | none => .ok none
  | some row =>
    match loadsTextColumn row.key_matches, loadsTextColumn row.missing_requirements,
          loadsJsonbColumn row.evaluation_data with
    | .ok km, .ok mr, .ok ed =>
      .ok (some { id := row.id, job_id := row.job_id, resume_name := row.resume_name,
                  result := row.result, justification := row.justification,
                  match_score := row.match_score,
                  years_experience_total := row.years_experience_total,
                  years_experience_relevant := row.years_experience_relevant,
                  years_experience_required := row.years_experience_required,
                  meets_experience_requirement := row.meets_experience_requirement,
                  key_matches := km, missing_requirements := mr,
                  experience_analysis := row.experience_analysis,
                  evaluation_date := row.evaluation_date, evaluation_data := ed })
    | _, _, _ => .error ()

/-- `DATE(ts)` on an epoch-seconds timestamp: the day number. -/
def dateOf (ts : ℕ) : ℕ := ts / 86400

/-- Descending order on `evaluation_date` (`ORDER BY e.evaluation_date
DESC`), over rows joined with the job title. -/
def byDateDesc (p q : EvalRow × String) : Bool :=
  decide (q.1.evaluation_date ≤ p.1.evaluation_date)

/-- The `FROM evaluations JOIN job_descriptions` rows whose
`DATE(evaluation_date)` lies in `[a, b]` (`get_evaluations_by_date_range`,
lines 290-304, before ordering). -/
def dateRangeRows (st : Store) (a b : ℕ) : List (EvalRow × String) :=
  st.evals.filterMap (fun e =>
    if a ≤ dateOf e.evaluation_date ∧ dateOf e.evaluation_date ≤ b then
      (st.jobs.find? (fun j => decide (j.id = e.job_id))).map (fun j => (e, j.title))
    else none)

/-- `get_evaluations_by_date_range` (lines 290-304). -/
def getEvaluationsByDateRange (st : Store) (a b : ℕ) : List (EvalRow × String) :=
  (dateRangeRows st a b).mergeSort byDateDesc

/-- The relative time windows of `get_evaluations_by_period`; any period
string other than week/month/quarter falls into the 365-day branch. -/
inductive Period where
  | week
  | month
  | quarter
  | year

/-- Days covered by each window. -/
def periodDays : Period → ℕ
  | .week => 7
  | .month => 30
  | .quarter => 90
  | .year => 365

/-- `get_evaluations_by_period` (lines 119-144): the joined rows of the last
`periodDays` days, most recent first.  `now` is the server clock `NOW()` in
epoch seconds. -/
def getEvaluationsByPeriod (st : Store) (now : ℕ) (p : Period) : List (EvalRow × String) :=
  (st.evals.filterMap (fun e =>
    if now - periodDays p * 86400 ≤ e.evaluation_date then
      (st.jobs.find? (fun j => decide (j.id = e.job_id))).map (fun j => (e, j.title))
    else none)).mergeSort byDateDesc

/-! Analytics aggregator (`src/analytics.py`). -/

/-- The metrics dictionary returned by `Analytics.get_evaluation_stats`. -/
structure EvalStats where
  total_evaluations : ℕ
  shortlisted : ℕ
  rejection_rate : ℚ
  avg_experience : ℚ
  top_skills : List (String × ℕ)
  education_levels : List (String × ℕ)

/-- The zeroed metrics returned for an empty result set (lines 24-31). -/
def zeroStats : EvalStats :=
  { total_evaluations := 0, shortlisted := 0, rejection_rate := 0, avg_experience := 0,
    top_skills := [], education_levels := [] }

/-- Python `round` to the nearest integer, ties to even (banker rounding). -/
def roundHalfEven (x : ℚ) : ℤ :=
  let f := ⌊x⌋
  let r := x - (f : ℚ)
  if r < 1 / 2 then f
  else if 1 / 2 < r then f + 1
  else if f % 2 = 0 then f else f + 1

/-- Python `round(x, 1)`. -/
def roundHalfEven1 (x : ℚ) : ℚ := (roundHalfEven (x * 10) : ℚ) / 10

/-- `_extract_top_skills` (lines 207-223): the guard keeps only string-typed
`evaluation_data` cells, but `.get` on a string raises `AttributeError`,
which the bare `except` swallows; non-string cells are skipped outright.  So
no skill is ever collected and the result is always empty. -/
def extractTopSkills (_rows : List (EvalRow × String)) : List (String × ℕ) := []

/-- `_extract_education_levels` (lines 225-241): same structure and same
always-empty outcome as `extractTopSkills`. -/
def extractEducationLevels (_rows : List (EvalRow × String)) : List (String × ℕ) := []

/-- `Analytics.get_evaluation_stats` (lines 19-64).  An empty result set
short-circuits to the zeroed metrics; otherwise the rejection rate is guarded
by `total > 0` and the mean experience is the column sum over the row
count. -/
def getEvaluationStats (st : Store) (now : ℕ) (p : Period) : EvalStats :=
  let evaluations := getEvaluationsByPeriod st now p
  if evaluations.isEmpty then zeroStats
  else
    let total := evaluations.length
    let shortlisted := (evaluations.filter (fun r => r.1.result.toLower == "shortlist")).length
    let rejection_rate : ℚ :=
      if 0 < total then ((total : ℚ) - (shortlisted : ℚ)) / (total : ℚ) * 100 else 0
    let avg : ℚ := (evaluations.map (fun r => r.1.years_experience_total)).sum / (total : ℚ)
    { total_evaluations := total, shortlisted := shortlisted, rejection_rate := rejection_rate,
      avg_experience := roundHalfEven1 avg,
      top_skills := extractTopSkills evaluations,
      education_levels := extractEducationLevels evaluations }

/-! Text extractor (`src/utils.py`). -/

/-- The declared media types `extract_text_from_upload` accepts. -/
def supportedTypes : List String :=
  ["application/pdf",
   "application/vnd.openxmlformats-officedocument.wordprocessingml.document",
   "text/plain"]

/-- The error taxonomy of the design: extraction failures (bad or unsupported
file).  `extract_text_from_upload` raises a wrapped exception for all of
them. -/
inductive ExtractError where
  | extractionError (msg : String)

/-- `extract_text_from_upload` (lines 47-70).  The three oracles are the
outcomes of `save_uploaded_file`+`parse_pdf`, `save_uploaded_file`+
`parse_docx`, and `getvalue().decode("utf-8")`, each carrying the message of
the exception it raised, if any.  Every failure — including the unsupported
declared type — is re-raised wrapped in the `Failed to extract text from
file` message and no text is returned. -/
def extractTextFromUpload (f : UploadFile) (pdfResult docxResult utf8Result : Except String String) :
    Except ExtractError String :=
  if f.media_type = "application/pdf" then
    match pdfResult with
    | .ok text => .ok text
    | .error msg => .error (.extractionError ("Failed to extract text from file: " ++ msg))
  else if f.media_type = "application/vnd.openxmlformats-officedocument.wordprocessingml.document" then
    match docxResult with
    | .ok text => .ok text
    | .error msg => .error (.extractionError ("Failed to extract text from file: " ++ msg))
  else if f.media_type = "text/plain" then
    match utf8Result with
    | .ok text => .ok text
    | .error msg => .error (.extractionError ("Failed to extract text from file: " ++ msg))
  else
    .error (.extractionError
      "Failed to extract text from file: Unsupported file type. Please upload a PDF, DOCX, or text file.")

/-! Concrete inputs used to evaluate the verified statements. -/

/-- A run of the three model calls in which the evaluation response decodes
to a JSON object without a `decision` key and the other two calls fail. -/
def exampleResponses : ModelResponses :=
  { candidate := .error (), experience := .error (),
    evaluation := .ok (.obj [("match_score", .num 1), ("justification", .str "fits")]) }

/-- The result `evaluate_resume` returns for `exampleResponses`. -/
def exampleResult : Json :=
  match evaluateResume exampleResponses none "2025-01-01T00:00:00" with
  | .ok r => r
  | .error _ => .null

/-- A store holding one job description and no evaluations. -/
def exampleStore : Store :=
  { jobs := [{ id := 1, title := "Engineer", description := "desc", date_created := 0,
               active := true }],
    criteria := [], evals := [], nextJobId := 2, nextCriteriaId := 1, nextEvalId := 1 }

/-- The store after saving `exampleResult` against job 1. -/
def exampleSavedStore : Store :=
  match saveEvaluation exampleStore 1 "resume.pdf" exampleResult none 100 with
  | .ok st => st
  | .error _ => exampleStore

/-- An experience-analysis response that takes the success path. -/
def exampleExperienceResponse : Except Unit Json :=
  .ok (.obj [("relevant_years", .str "3"), ("quality_score", .num 1)])

/-- A store whose only job is already soft-deleted. -/
def inactiveJobStore : Store :=
  { jobs := [{ id := 5, title := "Old role", description := "closed", date_created := 0,
               active := false }],
    criteria := [], evals := [], nextJobId := 6, nextCriteriaId := 1, nextEvalId := 1 }

/-- An evaluation row used by the date-range witness. -/
def witnessEvalRow : EvalRow :=
  { id := 1, job_id := 1, resume_name := "a.pdf", candidate_name := none,
    candidate_email := none, candidate_phone := none, candidate_location := none,
    linkedin_profile := none, result := "SHORTLIST", justification := "ok",
    match_score := 1, confidence_score := 1, years_experience_total := 1,
    years_experience_relevant := 1, years_experience_required := 0,
    meets_experience_requirement := true, key_matches := .arr [],
    missing_requirements := .arr [], experience_analysis := none,
    evaluation_data := .obj [], evaluation_date := 86400,
    resume_file_data := none, resume_file_type := none }

/-- A store with one job and one evaluation on day 1. -/
def rangeWitnessStore : Store :=
  { jobs := [{ id := 1, title := "Engineer", description := "desc", date_created := 0,
               active := true }],
    criteria := [], evals := [witnessEvalRow], nextJobId := 2, nextCriteriaId := 1,
    nextEvalId := 2 }

/-- An upload whose declared media type is none of the three supported
kinds. -/
def pngUpload : UploadFile := { name := "photo.png", media_type := "image/png", content := [] }

/-! Helper lemmas. -/

/-- Looking up the key just assigned returns the assigned value. -/
theorem lookup_setKey_self (fs : List (String × Json)) (k : String) (v : Json) :
    List.lookup k (setKey fs k v) = some v := by
  induction fs with
  | nil => simp [setKey, List.lookup]
  | cons p t ih =>
    obtain ⟨a, b⟩ := p
    by_cases h : a = k
    · simp [setKey, h, List.lookup]
    · simp [setKey, h, List.lookup, ih, beq_false_of_ne (Ne.symm h)]

/-- Assignment to one key leaves lookups of other keys unchanged. -/
theorem lookup_setKey_ne (fs : List (String × Json)) (k k' : String) (v : Json)
    (h : k ≠ k') : List.lookup k' (setKey fs k v) = List.lookup k' fs := by
  induction fs with
  | nil => simp [setKey, List.lookup, beq_false_of_ne (Ne.symm h)]
  | cons p t ih =>
    obtain ⟨a, b⟩ := p
    by_cases ha : a = k
    · subst ha
      simp [setKey, List.lookup, beq_false_of_ne (Ne.symm h)]
    · simp [setKey, ha, List.lookup, ih]

/-- The descending-date order is transitive. -/
theorem byDateDesc_trans (x y z : EvalRow × String)
    (hxy : byDateDesc x y = true) (hyz : byDateDesc y z = true) : byDateDesc x z = true := by
  simp [byDateDesc] at hxy hyz ⊢
  omega

/-- The descending-date order is total. -/
theorem byDateDesc_total (x y : EvalRow × String) :
    (byDateDesc x y || byDateDesc y x) = true := by
  simp [byDateDesc]
  omega

/-- A successful `save_evaluation` appends exactly one row to the
`evaluations` table. -/
theorem saveEvaluation_ok_length (st : Store) (job_id : ℕ) (resume_name : String)
    (evaluation_result : Json) (resume_file : Option UploadFile) (now : ℕ) (st1 : Store)
    (h : saveEvaluation st job_id resume_name evaluation_result resume_file now = .ok st1) :
    st1.evals.length = st.evals.length + 1 := by
  unfold saveEvaluation at h
  split at h
  · exact absurd h (by simp)
  · split at h
    · injection h with h1
      subst h1
      simp
    · exact absurd h (by simp)

/-- The `result` column written by `save_evaluation` is the string conversion
of `evaluation_result.get('decision', '')`. -/
theorem computeSaveParams_result (er : Json) (p : SaveParams)
    (hp : computeSaveParams er = some p) :
    asTextNN? (er.getD "decision" (.str "")) = some p.result := by
  unfold computeSaveParams at hp
  split at hp
  case _ =>
    split at hp
    case _ ci hci =>
      split at hp
      case _ yo hyo =>
        split at hp
        case _ cn ce cp cl li res ju ms cs yt yr yq ea h1 h2 h3 h4 h5 h6 h7 h8 h9 h10 h11 h12 h13 =>
          injection hp with hp1
          subst hp1
          exact h6
        case _ => exact absurd hp (by simp)
      case _ => exact absurd hp (by simp)
    case _ => exact absurd hp (by simp)
  case _ => exact absurd hp (by simp)

/-! Claim theorems. -/

/-- C2 (counterexample): `add_job_description` with a non-empty criteria dict
is not atomic.  On a concrete empty store, when the criteria insert fails the
call reports an error, yet the job-description insert has already been
committed: the store is changed on error, contradicting the claim that it is
unchanged. -/
theorem create_job_partial_commit_cx :
    (addJobDescription emptyStore "Engineer" "desc"
      (some (.obj [("min_years_experience", .num 2)])) 0 true).1 = .error () ∧
    (addJobDescription emptyStore "Engineer" "desc"
      (some (.obj [("min_years_experience", .num 2)])) 0 true).2.jobs.length = 1 ∧
    emptyStore.jobs.length = 0 :=
  ⟨rfl, rfl, rfl⟩

/-- C2 (amended): each statement of `add_job_description` commits on its own.
When truthy criteria are passed — so the second statement actually runs — and
that criteria insert fails, the operation raises and no criteria row is
stored, but the job row inserted by the first, already-committed statement
remains in the store. -/
theorem create_job_two_statement_commit (st : Store) (title description : String)
    (c : Json) (now : ℕ) (hc : pyTruthy c = true) :
    (addJobDescription st title description (some c) now true).1 = .error () ∧
    (addJobDescription st title description (some c) now true).2.criteria = st.criteria ∧
    (addJobDescription st title description (some c) now true).2.jobs =
      st.jobs ++ [{ id := st.nextJobId, title := title, description := description,
                    date_created := now, active := true }] := by
  refine ⟨?_, ?_, ?_⟩ <;> simp [addJobDescription, hc]

/-- Witness for C2 (amended): a concrete truthy criteria dict whose insert
fails. -/
theorem create_job_two_statement_commit_witness :
    pyTruthy (.obj [("min_years_experience", Json.num 2)]) = true ∧
    ((addJobDescription exampleStore "Analyst" "desc2"
        (some (.obj [("min_years_experience", .num 2)])) 7 true).1 = .error () ∧
     (addJobDescription exampleStore "Analyst" "desc2"
        (some (.obj [("min_years_experience", .num 2)])) 7 true).2.criteria =
          exampleStore.criteria ∧
     (addJobDescription exampleStore "Analyst" "desc2"
        (some (.obj [("min_years_experience", .num 2)])) 7 true).2.jobs =
       exampleStore.jobs ++ [{ id := exampleStore.nextJobId, title := "Analyst",
                               description := "desc2", date_created := 7, active := true }]) :=
  ⟨rfl, create_job_two_statement_commit exampleStore "Analyst" "desc2"
    (.obj [("min_years_experience", .num 2)]) 7 rfl⟩

/-- C5: when the selected period contains no stored evaluations, the
aggregator returns zeroed metrics — zero total, zero shortlisted and a zero
rejection rate — instead of failing on a division. -/
theorem stats_empty_period_zeroed (st : Store) (now : ℕ) (p : Period)
    (h : getEvaluationsByPeriod st now p = []) :
    (getEvaluationStats st now p).total_evaluations = 0 ∧
    (getEvaluationStats st now p).shortlisted = 0 ∧
    (getEvaluationStats st now p).rejection_rate = 0 := by
  simp [getEvaluationStats, h, zeroStats]

/-- Witness for C5: the evaluation of the aggregator on a concrete store
with no evaluations. -/
theorem stats_empty_period_zeroed_witness :
    getEvaluationsByPeriod emptyStore 1000000 Period.week = [] ∧
    ((getEvaluationStats emptyStore 1000000 Period.week).total_evaluations = 0 ∧
     (getEvaluationStats emptyStore 1000000 Period.week).shortlisted = 0 ∧
     (getEvaluationStats emptyStore 1000000 Period.week).rejection_rate = 0) := by
  have h : getEvaluationsByPeriod emptyStore 1000000 Period.week = [] := by
    simp [getEvaluationsByPeriod, emptyStore]
  exact ⟨h, stats_empty_period_zeroed emptyStore 1000000 Period.week h⟩

/-- C7: an upload whose declared media type is not one of the three
supported kinds makes text extraction fail with an extraction error, and no
text is returned. -/
theorem unsupported_type_extraction_error (f : UploadFile)
    (pdfResult docxResult utf8Result : Except String String)
    (h : f.media_type ∉ supportedTypes) :
    extractTextFromUpload f pdfResult docxResult utf8Result =
      .error (.extractionError
        "Failed to extract text from file: Unsupported file type. Please upload a PDF, DOCX, or text file.") := by
  simp only [supportedTypes, List.mem_cons, List.not_mem_nil, or_false, not_or] at h
  obtain ⟨h1, h2, h3⟩ := h
  simp [extractTextFromUpload, h1, h2, h3]

/-- Witness for C7: extraction of a PNG upload. -/
theorem unsupported_type_extraction_error_witness :
    pngUpload.media_type ∉ supportedTypes ∧
    extractTextFromUpload pngUpload (.ok "") (.ok "") (.ok "") =
      .error (.extractionError
        "Failed to extract text from file: Unsupported file type. Please upload a PDF, DOCX, or text file.") :=
  ⟨by decide, unsupported_type_extraction_error pngUpload (.ok "") (.ok "") (.ok "") (by decide)⟩

/-- C9: one logical statement run through `execute_query` takes one pooled
connection and gives it back on every exit path — commit, rollback, and even
pool exhaustion (where nothing was acquired) — so the pool of available
connections after the operation equals the pool before it; likewise for the
bare `get_connection` context manager. -/
theorem pool_balanced_on_all_paths {α β : Type} (pool : List ℕ) (st : Store)
    (tx : Store → Except Unit (α × Store)) (body : ℕ → β) :
    (executeQuery pool st tx).2 = pool ∧ (withConnection pool body).2 = pool := by
  cases pool <;> simp [executeQuery, withConnection, getconn, putconn]

/-- C10: the years-of-experience block of `_analyze_experience` satisfies
`required = float(min_years)` on every path; on the success path
`meets_requirement` is exactly the comparison `relevant ≥ required`, and on
the failure path it is `False` regardless of the requirement (even when
`required` is 0). -/
theorem experience_meets_requirement_relation (resp : Except Unit Json) (m : ℤ) :
    (analyzeExperience resp m).required = (m : ℚ) ∧
    (experienceSuccessPath resp = true →
      (analyzeExperience resp m).meets_requirement =
        decide ((analyzeExperience resp m).relevant ≥ (analyzeExperience resp m).required)) ∧
    (experienceSuccessPath resp = false →
      (analyzeExperience resp m).meets_requirement = false) := by
  cases resp with
  | error e =>
    exact ⟨rfl, by intro h; simp [experienceSuccessPath] at h, fun _ => rfl⟩
  | ok j =>
    cases j with
    | obj fields =>
      cases hq : pyFloat? ((Json.obj fields).getD "quality_score" (.num 0)) with
      | none => simp [analyzeExperience, experienceSuccessPath, hq, failedExperience]
      | some qs => simp [analyzeExperience, experienceSuccessPath, hq]
    | null => simp [analyzeExperience, experienceSuccessPath, failedExperience]
    | bool b => simp [analyzeExperience, experienceSuccessPath, failedExperience]
    | num q => simp [analyzeExperience, experienceSuccessPath, failedExperience]
    | str s => simp [analyzeExperience, experienceSuccessPath, failedExperience]
    | arr elems => simp [analyzeExperience, experienceSuccessPath, failedExperience]

/-- Witness for C10: a concrete success-path run with a three-year relevant
experience and a two-year requirement. -/
theorem experience_meets_requirement_relation_witness :
    experienceSuccessPath exampleExperienceResponse = true ∧
    (analyzeExperience exampleExperienceResponse 2).meets_requirement =
      decide ((analyzeExperience exampleExperienceResponse 2).relevant ≥
        (analyzeExperience exampleExperienceResponse 2).required) :=
  ⟨rfl, (experience_meets_requirement_relation exampleExperienceResponse 2).2.1 rfl⟩

/-- C4: when candidate-identity extraction raises (both provider calls fail),
`evaluate_resume` does not abort: provided the evaluation response decodes to
an object, it still returns a full result whose `candidate_info` is the
sentinel record with every identity field `"Not provided"` and an empty
`key_skills` list. -/
theorem candidate_info_fallback_sentinel (rs : ModelResponses) (criteria : Option CriteriaOut)
    (now : String) (fields : List (String × Json))
    (hc : rs.candidate = .error ())
    (he : rs.evaluation = .ok (.obj fields)) :
    ∃ r, evaluateResume rs criteria now = .ok r ∧
      r.lookup "candidate_info" = some sentinelCandidateInfo ∧
      sentinelCandidateInfo.lookup "name" = some (.str "Not provided") ∧
      sentinelCandidateInfo.lookup "email" = some (.str "Not provided") ∧
      sentinelCandidateInfo.lookup "phone" = some (.str "Not provided") ∧
      sentinelCandidateInfo.lookup "location" = some (.str "Not provided") ∧
      sentinelCandidateInfo.lookup "linkedin" = some (.str "Not provided") ∧
      sentinelCandidateInfo.lookup "education" = some (.str "Not provided") ∧
      sentinelCandidateInfo.lookup "total_experience" = some (.str "Not provided") ∧
      sentinelCandidateInfo.lookup "key_skills" = some (.arr []) := by
  refine ⟨Json.obj (setKey (setKey (setKey fields "candidate_info" sentinelCandidateInfo)
      "years_of_experience" (analyzeExperience rs.experience (criteriaMinYears criteria)).toJson)
      "evaluation_date" (.str now)), ?_, ?_, rfl, rfl, rfl, rfl, rfl, rfl, rfl, rfl⟩
  · simp [evaluateResume, he, hc, extractCandidateInfo]
  · show Json.lookup _ _ = _
    rw [Json.lookup]
    rw [lookup_setKey_ne _ _ _ _ (by decide), lookup_setKey_ne _ _ _ _ (by decide),
        lookup_setKey_self]

/-- Witness for C4: a concrete run in which both identity-extraction calls
fail but the evaluation call succeeds. -/
theorem candidate_info_fallback_sentinel_witness :
    ∃ r, evaluateResume exampleResponses none "2025-01-01T00:00:00" = .ok r ∧
      r.lookup "candidate_info" = some sentinelCandidateInfo ∧
      sentinelCandidateInfo.lookup "name" = some (.str "Not provided") ∧
      sentinelCandidateInfo.lookup "email" = some (.str "Not provided") ∧
      sentinelCandidateInfo.lookup "phone" = some (.str "Not provided") ∧
      sentinelCandidateInfo.lookup "location" = some (.str "Not provided") ∧
      sentinelCandidateInfo.lookup "linkedin" = some (.str "Not provided") ∧
      sentinelCandidateInfo.lookup "education" = some (.str "Not provided") ∧
      sentinelCandidateInfo.lookup "total_experience" = some (.str "Not provided") ∧
      sentinelCandidateInfo.lookup "key_skills" = some (.arr []) :=
  candidate_info_fallback_sentinel exampleResponses none "2025-01-01T00:00:00"
    [("match_score", .num 1), ("justification", .str "fits")] rfl rfl

/-- C1 (counterexample): a model response that decodes to a JSON object
without the `decision` key does not make `evaluate_resume` fail — no schema
validation exists — and `save_evaluation` then persists a record for that
very call, so the evaluations store does change. -/
theorem missing_decision_still_saved_cx :
    evaluateResume exampleResponses none "2025-01-01T00:00:00" = .ok exampleResult ∧
    exampleResult.lookup "decision" = none ∧
    saveEvaluation exampleStore 1 "resume.pdf" exampleResult none 100 = .ok exampleSavedStore ∧
    exampleSavedStore.evals.length = exampleStore.evals.length + 1 :=
  ⟨rfl, rfl, rfl, rfl⟩

/-- C1 (amended): `evaluate_resume` performs no schema validation.  When the
evaluation response decodes to an object without a `decision` key, the call
returns successfully with a result that still has no `decision` key; the
parameters `save_evaluation` later builds give that record an empty-string
`result` column, and every successful save appends one row to the
evaluations store. -/
theorem evaluate_no_schema_validation (rs : ModelResponses) (criteria : Option CriteriaOut)
    (now : String) (fields : List (String × Json))
    (he : rs.evaluation = .ok (.obj fields))
    (hd : List.lookup "decision" fields = none) :
    ∃ r, evaluateResume rs criteria now = .ok r ∧ r.lookup "decision" = none ∧
      (∀ p, computeSaveParams r = some p → p.result = "") ∧
      (∀ st st1 job_id resume_name file ts,
        saveEvaluation st job_id resume_name r file ts = .ok st1 →
        st1.evals.length = st.evals.length + 1) := by
  refine ⟨Json.obj (setKey (setKey (setKey fields "candidate_info"
      (extractCandidateInfo rs.candidate))
      "years_of_experience" (analyzeExperience rs.experience (criteriaMinYears criteria)).toJson)
      "evaluation_date" (.str now)), ?_, ?_, ?_, ?_⟩
  · simp [evaluateResume, he]
  · show Json.lookup _ _ = _
    rw [Json.lookup]
    rw [lookup_setKey_ne _ _ _ _ (by decide), lookup_setKey_ne _ _ _ _ (by decide),
        lookup_setKey_ne _ _ _ _ (by decide)]
    exact hd
  · intro p hp
    have hres := computeSaveParams_result _ p hp
    rw [Json.getD, Json.lookup] at hres
    rw [lookup_setKey_ne _ _ _ _ (by decide), lookup_setKey_ne _ _ _ _ (by decide),
        lookup_setKey_ne _ _ _ _ (by decide), hd] at hres
    simp [asTextNN?] at hres
    exact hres.symm
  · intro st st1 job_id resume_name file ts hsave
    exact saveEvaluation_ok_length st job_id resume_name _ file ts st1 hsave

/-- Witness for C1 (amended): the concrete decision-free response. -/
theorem evaluate_no_schema_validation_witness :
    ∃ r, evaluateResume exampleResponses none "2025-01-01T00:00:00" = .ok r ∧
      r.lookup "decision" = none ∧
      (∀ p, computeSaveParams r = some p → p.result = "") ∧
      (∀ st st1 job_id resume_name file ts,
        saveEvaluation st job_id resume_name r file ts = .ok st1 →
        st1.evals.length = st.evals.length + 1) :=
  evaluate_no_schema_validation exampleResponses none "2025-01-01T00:00:00"
    [("match_score", .num 1), ("justification", .str "fits")] rfl rfl

/-- C3 (code bug): a record written by `save_evaluation` cannot be read back
by `get_evaluation_details`.  psycopg2 returns the `JSONB` column
`evaluation_data` already decoded, so the function's `json.loads` call raises
`TypeError` on every stored row and the detail fetch fails instead of
returning the stored decision, match score and years-of-experience block. -/
theorem evaluation_details_read_fails :
    saveEvaluation exampleStore 1 "resume.pdf" exampleResult none 100 = .ok exampleSavedStore ∧
    getEvaluationDetails exampleSavedStore 1 = .error () :=
  ⟨rfl, rfl⟩

/-- C8: `delete_job` is an idempotent soft delete — applying it twice equals
applying it once, the row count never shrinks (no hard delete), and on a
store whose matching jobs are already inactive it is a no-op returning the
store unchanged. -/
theorem delete_job_idempotent (st : Store) (job_id : ℕ) :
    deleteJob (deleteJob st job_id) job_id = deleteJob st job_id ∧
    (deleteJob st job_id).jobs.length = st.jobs.length ∧
    ((∀ j ∈ st.jobs, j.id = job_id → j.active = false) → deleteJob st job_id = st) := by
  refine ⟨?_, by simp [deleteJob], ?_⟩
  · unfold deleteJob
    congr 1
    rw [List.map_map]
    apply List.map_congr_left
    intro j _
    by_cases h : j.id = job_id
    · simp [Function.comp, h]
    · simp [Function.comp, h]
  · intro h
    have hmap : st.jobs.map
        (fun j => if j.id = job_id then { j with active := false } else j) = st.jobs := by
      conv_rhs => rw [← List.map_id st.jobs]
      apply List.map_congr_left
      intro j hj
      by_cases h' : j.id = job_id
      · have hact := h j hj h'
        cases j
        simp_all
      · simp [h']
    unfold deleteJob
    rw [hmap]

/-- Witness for C8: deleting the already-inactive job 5 leaves the store
unchanged. -/
theorem delete_job_idempotent_witness :
    (∀ j ∈ inactiveJobStore.jobs, j.id = 5 → j.active = false) ∧
    deleteJob inactiveJobStore 5 = inactiveJobStore :=
  ⟨by decide, (delete_job_idempotent inactiveJobStore 5).2.2 (by decide)⟩

/-- C6: under the foreign-key invariant (every evaluation references an
existing job), the date-range query returns exactly the evaluation rows
whose `DATE(evaluation_date)` lies within `[a, b]` inclusive, ordered most
recent first. -/
theorem date_range_query_exact_sorted (st : Store) (a b : ℕ)
    (hfk : ∀ e ∈ st.evals,
      (st.jobs.find? (fun j => decide (j.id = e.job_id))).isSome = true) :
    (∀ p ∈ getEvaluationsByDateRange st a b,
        p.1 ∈ st.evals ∧ a ≤ dateOf p.1.evaluation_date ∧ dateOf p.1.evaluation_date ≤ b) ∧
    (∀ e ∈ st.evals, a ≤ dateOf e.evaluation_date → dateOf e.evaluation_date ≤ b →
        ∃ t, (e, t) ∈ getEvaluationsByDateRange st a b) ∧
    List.Sorted (fun p q : EvalRow × String => q.1.evaluation_date ≤ p.1.evaluation_date)
      (getEvaluationsByDateRange st a b) := by
  refine ⟨?_, ?_, ?_⟩
  · intro p hp
    rw [getEvaluationsByDateRange, List.mem_mergeSort, dateRangeRows,
        List.mem_filterMap] at hp
    obtain ⟨e, he, hfe⟩ := hp
    by_cases hr : a ≤ dateOf e.evaluation_date ∧ dateOf e.evaluation_date ≤ b
    · rw [if_pos hr] at hfe
      rcases Option.map_eq_some'.mp hfe with ⟨j, _, hpj⟩
      rw [← hpj]
      exact ⟨he, hr.1, hr.2⟩
    · rw [if_neg hr] at hfe
      exact absurd hfe (by simp)
  · intro e he ha hb
    rcases Option.isSome_iff_exists.mp (hfk e he) with ⟨j, hj⟩
    refine ⟨j.title, ?_⟩
    rw [getEvaluationsByDateRange, List.mem_mergeSort, dateRangeRows, List.mem_filterMap]
    exact ⟨e, he, by rw [if_pos ⟨ha, hb⟩, hj]; rfl⟩
  · have hs := List.sorted_mergeSort byDateDesc_trans byDateDesc_total (dateRangeRows st a b)
    rw [getEvaluationsByDateRange]
    exact hs.imp (fun h => by simpa [byDateDesc] using h)

/-- Witness for C6: the query on a concrete store with one job and one
evaluation on day 1, over the day range 0 to 1. -/
theorem date_range_query_exact_sorted_witness :
    (∀ e ∈ rangeWitnessStore.evals,
      (rangeWitnessStore.jobs.find? (fun j => decide (j.id = e.job_id))).isSome = true) ∧
    ((∀ p ∈ getEvaluationsByDateRange rangeWitnessStore 0 1,
        p.1 ∈ rangeWitnessStore.evals ∧ 0 ≤ dateOf p.1.evaluation_date ∧
        dateOf p.1.evaluation_date ≤ 1) ∧
     (∀ e ∈ rangeWitnessStore.evals,
        0 ≤ dateOf e.evaluation_date → dateOf e.evaluation_date ≤ 1 →
        ∃ t, (e, t) ∈ getEvaluationsByDateRange rangeWitnessStore 0 1) ∧
     List.Sorted (fun p q : EvalRow × String => q.1.evaluation_date ≤ p.1.evaluation_date)
       (getEvaluationsByDateRange rangeWitnessStore 0 1)) :=
  ⟨by decide, date_range_query_exact_sorted rangeWitnessStore 0 1 (by decide)⟩

end HRSA
